import Mathlib

/-!
Verification development for the `ncdb_tools` repository: a shallow
embedding in Lean 4 of the fixed-width decoder (`dataset_builder.py`),
the schema reconciler and transform engine (`_internal/transform.py`,
`constants.py`) and the query facade (`query.py`), together with
theorems settling the stated behavioural properties.
-/

namespace NcdbTools

/-! ## Polars data types, as they occur in this pipeline

The per-file parquet files written by `dataset_builder.build_dataset`
contain only `Utf8` (string) and `Int64` columns, and
`resolve_column_type` distinguishes exactly `Utf8`/`String`, `Float64`
and `Int64` in its preference chain, so the scalar type universe of the
pipeline (the spec data model's `string | integer | float`) is embedded
as a three-constructor type. -/
inductive DType where
  | utf8 : DType
  | int64 : DType
  | float64 : DType
deriving DecidableEq, Repr

/-- `str(t)` for the embedded polars data types (polars prints
`pl.Utf8()` as `String`). -/
def dtypeStr : DType → String
  | .utf8 => "String"
  | .int64 => "Int64"
  | .float64 => "Float64"

/-- Substring containment on character lists, the `'Utf8' in t` test of
`resolve_column_type`. -/
def listContains (p : List Char) : List Char → Bool
  | [] => p.isEmpty
  | c :: rest => p.isPrefixOf (c :: rest) || listContains p rest

/-- `needle in haystack` for strings. -/
def strContains (haystack needle : String) : Bool :=
  listContains needle.toList haystack.toList

/-- `s.startswith(p)` / `str.starts_with`, computed on the character
lists. -/
def strStartsWith (s p : String) : Bool :=
  p.toList.isPrefixOf s.toList

/-- Python's `str.strip()`: drop leading and trailing whitespace. -/
def strTrim (s : String) : String :=
  String.mk (((s.toList.dropWhile Char.isWhitespace).reverse.dropWhile
    Char.isWhitespace).reverse)

/-- `str.upper()` on ASCII column names. -/
def strToUpper (s : String) : String :=
  String.mk (s.toList.map Char.toUpper)

/-- The value of a nonempty all-digit character list. -/
def digitsVal (cs : List Char) : Option Nat :=
  if cs.isEmpty then none
  else if cs.all Char.isDigit then
    some (cs.foldl (fun a c => 10 * a + (c.toNat - 48)) 0)
  else none

/-- The engine's strict integer syntax for casting a string to `Int64`:
an optional minus sign followed by digits; anything else fails. -/
def strToInt64 (s : String) : Option Int :=
  match s.toList with
  | '-' :: rest => (digitsVal rest).map (fun n => -(n : Int))
  | l => (digitsVal l).map (fun n => (n : Int))

/-! ## constants.py -/

/-- `STRING_VARIABLES` from `constants.py`. -/
def STRING_VARIABLES : List String :=
  ["PUF_CASE_ID", "PUF_FACILITY_ID", "YEAR_OF_DIAGNOSIS", "ZIP",
   "FACILITY_TYPE_CD", "FACILITY_LOCATION_CD"]

/-- `SITE_COLUMNS` from `constants.py`. -/
def SITE_COLUMNS : List String := ["PRIMARY_SITE"]

/-- `HISTOLOGY_COLUMNS` from `constants.py`. -/
def HISTOLOGY_COLUMNS : List String :=
  ["HISTOLOGY", "HISTOLOGY_ICDO3", "BEHAVIOR"]

/-- `CLASSIFICATION_COLUMNS` from `constants.py`. -/
def CLASSIFICATION_COLUMNS : List String :=
  ["LATERALITY", "CLASS_OF_CASE", "SEQUENCE_NUMBER"]

/-- `NEVER_NUMERIC` (= `NEVER_NUMERIC_COLUMNS`) from `constants.py`:
the union of the four code lists above. -/
def NEVER_NUMERIC : List String :=
  STRING_VARIABLES ++ SITE_COLUMNS ++ HISTOLOGY_COLUMNS ++ CLASSIFICATION_COLUMNS

/-- `NCDB_RECORD_LENGTH` from `constants.py`. -/
def NCDB_RECORD_LENGTH : Nat := 1032

/-! ## Schema reconciliation (`transform.py`) -/

/-- One per-file inferred schema: an ordered association of column name
to data type, as returned by `pl.scan_parquet(pf).collect_schema()`. -/
abbrev FileSchema := List (String × DType)

/-- `resolve_column_type` from `transform.py`: if all observed types
agree (compared through their `str()` forms), keep the first; otherwise
prefer `Utf8`, then `Float64`, then `Int64`, defaulting to `Utf8`. -/
def resolve_column_type : List DType → DType
  | [] => .utf8
  | t :: ts =>
    let typeStrs := (t :: ts).map dtypeStr
    if ts.all (fun u => dtypeStr u == dtypeStr t) then t
    else if typeStrs.any (fun s => strContains s "Utf8" || strContains s "String") then .utf8
    else if typeStrs.any (fun s => strContains s "Float64") then .float64
    else if typeStrs.any (fun s => strContains s "Int64") then .int64
    else .utf8

/-- The list of types observed for `col` across the per-file schemas,
in file order (`column_types[col]` in `determine_global_schema`). -/
def observedTypes (schemas : List FileSchema) (col : String) : List DType :=
  schemas.filterMap (fun fs => (fs.find? (fun p => p.1 == col)).map (·.2))

/-- Whether `col` is in `all_columns`, the union of the column names of
all per-file schemas. -/
def colObserved (schemas : List FileSchema) (col : String) : Bool :=
  schemas.any (fun fs => fs.any (fun p => p.1 == col))

/-- `determine_global_schema` from `transform.py`, viewed as the mapping
it builds: for every observed column, never-numeric columns are forced
to `Utf8` and all others go through `resolve_column_type`; unobserved
columns are absent from the dictionary. -/
def determine_global_schema (schemas : List FileSchema) (col : String) :
    Option DType :=
  if colObserved schemas col then
    some (if col ∈ NEVER_NUMERIC then .utf8
          else resolve_column_type (observedTypes schemas col))
  else none

/-- The winner of the total-order precedence string > floating-point >
integer, as the spec words it, over a nonempty list of observed types.
Stated independently of `resolve_column_type` so the two can be
compared. -/
def typeRank : DType → Nat
  | .int64 => 0
  | .float64 => 1
  | .utf8 => 2

/-- The maximal type of `t :: ts` under the precedence order. -/
def precWinner (t : DType) (ts : List DType) : DType :=
  ts.foldl (fun a b => if typeRank a < typeRank b then b else a) t

/-! ## Cell values

Polars cells as they occur in this pipeline: strings, 64-bit integers,
booleans and null. -/
inductive Val where
  | str (s : String) : Val
  | int (n : Int) : Val
  | bool (b : Bool) : Val
  | null : Val
deriving DecidableEq, Repr

/-- Look a column up in a row (an ordered name/value association); a
missing entry reads as null. -/
def dfGet (r : List (String × Val)) (c : String) : Val :=
  ((r.find? (fun p => p.1 == c)).map (·.2)).getD .null

/-! ## Fixed-width decoding (`dataset_builder.py`) -/

/-- A column definition: name, 0-based inclusive start offset and
exclusive end offset (`stop` stands for the Python dict's `end` key,
which is a Lean keyword). -/
structure ColDef where
  name : String
  start : Nat
  stop : Nat

/-- One field of `_parse_line`: `line[start:end].strip()`. -/
def parseField (line : String) (c : ColDef) : String :=
  strTrim (String.mk ((line.toList.drop c.start).take (c.stop - c.start)))

/-- `_parse_line`: extract every declared field of one line. -/
def parseLine (line : String) (defs : List ColDef) : List (String × String) :=
  defs.map (fun c => (c.name, parseField line c))

/-- The line loop of `build_dataset` without the batching: lines are
modelled without their trailing newline (`len(line.rstrip('\n'))`).
Whitespace-only lines are skipped (`if not line.strip(): continue`),
then lines whose length differs from `NCDB_RECORD_LENGTH` are skipped,
and every remaining line is parsed. -/
def decodeFile (lines : List String) (defs : List ColDef) :
    List (List (String × String)) :=
  lines.filterMap (fun l =>
    if strTrim l == "" then none
    else if l.length == NCDB_RECORD_LENGTH then some (parseLine l defs)
    else none)

/-- The batching loop of `build_dataset`: rows are appended to the
current batch, which is flushed once it reaches `batchSize`; a nonempty
final batch is flushed at the end. -/
def batchLoop (batchSize : Nat) : List α → List α → List (List α)
  | [], batch => if batch.isEmpty then [] else [batch]
  | r :: rs, batch =>
    if batchSize ≤ (batch ++ [r]).length then (batch ++ [r]) :: batchLoop batchSize rs []
    else batchLoop batchSize rs (batch ++ [r])

/-- The decoded rows of `build_dataset` after `pl.concat(batches)`:
decode, split into batches, concatenate. -/
def buildRows (batchSize : Nat) (lines : List String) (defs : List ColDef) :
    List (List (String × String)) :=
  (batchLoop batchSize (decodeFile lines defs) []).flatten

/-- `numeric_patterns` of `_apply_transformations` in
`dataset_builder.py`. -/
def numeric_patterns : List String :=
  ["AGE", "YEAR", "DAYS", "SIZE", "NODES", "DOSE", "FRACTION", "MONTHS"]

/-- Whether `_apply_transformations` casts a column: metadata columns
(leading underscore) are skipped, otherwise any column whose upper-cased
name contains one of the numeric patterns is cast. -/
def isNumericTarget (col : String) : Bool :=
  !strStartsWith col "_" && numeric_patterns.any (fun p => strContains (strToUpper col) p)

/-- The per-cell cast of `_apply_transformations`:
`str.strip_chars().replace("", None).cast(pl.Int64, strict=False)` —
trim, empty becomes null, then a non-strict integer parse that turns
unparseable values into null. -/
def builderNumericCast (s : String) : Val :=
  let s' := strTrim s
  if s' == "" then .null
  else match strToInt64 s' with
    | some n => .int n
    | none => .null

/-- `_apply_transformations` of `dataset_builder.py` at frame level:
numeric-pattern columns are cast cell by cell, all other columns keep
their decoded string values. -/
def applyBuilderTransformations (rows : List (List (String × String))) :
    List (List (String × Val)) :=
  rows.map (fun r => r.map (fun p =>
    (p.1, if isNumericTarget p.1 then builderNumericCast p.2 else .str p.2)))

/-! ## NCDB-specific transformations (`transform.py`) -/

/-- `pl.col(c) == lit` for a string literal: string cells compare by
equality; a null cell yields a null comparison. A non-string cell never
compares equal to the non-numeric literal used here (the engine refuses
such a comparison); it is modelled as null. -/
def valEqStrLit (v : Val) (lit : String) : Option Bool :=
  match v with
  | .str s => some (s == lit)
  | _ => none

/-- `pl.col(c).str.starts_with(p)`: defined on string cells, null
otherwise. -/
def valStartsWith (v : Val) (p : String) : Option Bool :=
  match v with
  | .str s => some (strStartsWith s p)
  | _ => none

/-- `cast(pl.Int64, strict=False)` on a single cell. -/
def castInt64NonStrict (v : Val) : Val :=
  match v with
  | .str s => match strToInt64 s with | some n => .int n | none => .null
  | .int n => .int n
  | .bool b => .int (if b then 1 else 0)
  | .null => .null

/-- `pl.when(cond).then(t).otherwise(e)`: a null condition yields a
null result. -/
def whenOtherwise : Option Bool → Val → Val → Val
  | some b, t, e => if b then t else e
  | none, _, _ => .null

/-- The `AGE_AS_INT` expression of
`apply_ncdb_specific_transformations`: literal `"90+"` maps to 90,
anything else is a non-strict integer cast. -/
def ageAsInt (age : Val) : Val :=
  whenOtherwise (valEqStrLit age "90+") (.int 90) (castInt64NonStrict age)

/-- The `AGE_IS_90_PLUS` expression of
`apply_ncdb_specific_transformations`. -/
def ageIs90Plus (age : Val) : Val :=
  whenOtherwise (valEqStrLit age "90+") (.bool true) (.bool false)

/-- `create_site_groups_expr` from `transform.py`: the ordered
when/then chain over `PRIMARY_SITE`. -/
def siteGroupExpr (v : Val) : Val :=
  whenOtherwise (valStartsWith v "C50") (.str "Breast")
    (whenOtherwise (valStartsWith v "C78") (.str "Lymph Node")
      (whenOtherwise (valStartsWith v "C77") (.str "Lymph Node")
        (whenOtherwise (valStartsWith v "C71") (.str "Brain/CNS")
          (whenOtherwise (valStartsWith v "C72") (.str "Brain/CNS")
            (whenOtherwise (valStartsWith v "C43") (.str "Skin/Melanoma")
              (whenOtherwise (valStartsWith v "C44") (.str "Skin/Melanoma")
                (.str "Other")))))))

/-- `create_histology_groups_expr` from `transform.py`. -/
def histologyGroupExpr (v : Val) : Val :=
  whenOtherwise (valStartsWith v "814") (.str "Adenocarcinoma")
    (whenOtherwise (valStartsWith v "805") (.str "Squamous Cell Carcinoma")
      (whenOtherwise (valStartsWith v "872") (.str "Melanoma")
        (whenOtherwise (valStartsWith v "959") (.str "Lymphoma")
          (whenOtherwise (valStartsWith v "967") (.str "Lymphoma")
            (.str "Other")))))

/-- The rules of `create_site_groups_expr` as an ordered
prefix/group list, for stating the first-match-wins reading. -/
def siteRules : List (String × String) :=
  [("C50", "Breast"), ("C78", "Lymph Node"), ("C77", "Lymph Node"),
   ("C71", "Brain/CNS"), ("C72", "Brain/CNS"),
   ("C43", "Skin/Melanoma"), ("C44", "Skin/Melanoma")]

/-- Ordered first-match-wins evaluation of a rule list; values matching
no rule fall to "Other". -/
def firstMatch : List (String × String) → String → String
  | [], _ => "Other"
  | rule :: rest, s => if strStartsWith s rule.1 then rule.2 else firstMatch rest s

/-- A decoded table: column names plus rows. -/
structure DF where
  cols : List String
  rows : List (List (String × Val))
deriving DecidableEq, Repr

/-- `apply_ncdb_specific_transformations` from `transform.py` at frame
level: the age columns are derived when `AGE` is present, the site and
histology groups when their source columns are present. -/
def apply_ncdb_specific_transformations (df : DF) : DF :=
  let withAge := df.cols.contains "AGE"
  let withSite := df.cols.contains "PRIMARY_SITE"
  let withHist := df.cols.contains "HISTOLOGY"
  { cols := df.cols
      ++ (if withAge then ["AGE_AS_INT", "AGE_IS_90_PLUS"] else [])
      ++ (if withSite then ["SITE_GROUP"] else [])
      ++ (if withHist then ["HISTOLOGY_GROUP"] else []),
    rows := df.rows.map (fun r =>
      r ++ (if withAge then
              [("AGE_AS_INT", ageAsInt (dfGet r "AGE")),
               ("AGE_IS_90_PLUS", ageIs90Plus (dfGet r "AGE"))] else [])
        ++ (if withSite then [("SITE_GROUP", siteGroupExpr (dfGet r "PRIMARY_SITE"))] else [])
        ++ (if withHist then [("HISTOLOGY_GROUP", histologyGroupExpr (dfGet r "HISTOLOGY"))] else [])) }

/-- The frame `build_dataset` hands onward: decode with batching, then
the builder's numeric casts (`_apply_transformations`). The subsequent
steps of `build_dataset` (value labels, the two metadata columns, the
parquet write) are functions of this frame. -/
def buildDatasetFrame (batchSize : Nat) (lines : List String)
    (defs : List ColDef) : DF :=
  { cols := defs.map (·.name),
    rows := applyBuilderTransformations (buildRows batchSize lines defs) }

/-- The end-to-end pipeline for the age columns: `build_dataset`
produces the per-file frame, then `apply_transformations` in
`transform.py` runs `apply_ncdb_specific_transformations` on it.  For a
frame whose only numeric-pattern column is `AGE`, the intervening
`apply_data_type_conversions` is the identity: the global schema
resolves `AGE` to `Int64`, the type the builder already produced. -/
def endToEndBuild (batchSize : Nat) (lines : List String)
    (defs : List ColDef) : DF :=
  apply_ncdb_specific_transformations (buildDatasetFrame batchSize lines defs)

/-! ## Query facade (`query.py`)

The dataframe engine is modelled as a lazy relational plan over an
in-memory table; `collect` resolves column references against the
plan's schema and fails with `ColumnNotFoundError` when a referenced
column is absent, as the lazy engine does at materialization. -/

/-- `YEAR_COLUMN` from `constants.py`. -/
def YEAR_COLUMN : String := "YEAR_OF_DIAGNOSIS"

/-- `PRIMARY_SITE_COLUMN` from `constants.py`. -/
def PRIMARY_SITE_COLUMN : String := "PRIMARY_SITE"

/-- `HISTOLOGY_COLUMN` from `constants.py`. -/
def HISTOLOGY_COLUMN : String := "HISTOLOGY"

/-- `VITAL_STATUS_COLUMN` from `constants.py`. -/
def VITAL_STATUS_COLUMN : String := "PUF_VITAL_STATUS"

/-- `DEMOGRAPHIC_COLUMNS` from `constants.py`. -/
def DEMOGRAPHIC_COLUMNS : List String :=
  ["PUF_CASE_ID", "AGE", "SEX", "RACE", "SPANISH_HISPANIC_ORIGIN",
   "INSURANCE_STATUS", "CDCC_TOTAL_BEST", "MED_INC_QUAR_00",
   "NO_HSD_QUAR_00", "UR_CD_03", "MED_INC_QUAR_12", "NO_HSD_QUAR_12",
   "UR_CD_13", "MED_INC_QUAR_2016", "NO_HSD_QUAR_2016",
   "MED_INC_QUAR_2020", "NO_HSD_QUAR_2020", "CROWFLY"]

/-- `OUTCOME_COLUMNS` from `constants.py`. -/
def OUTCOME_COLUMNS : List String :=
  ["PUF_VITAL_STATUS", "DX_LASTCONTACT_DEATH_MONTHS", "PUF_30_DAY_MORT_CD",
   "PUF_90_DAY_MORT_CD", "READM_HOSP_30_DAYS", "PALLIATIVE_CARE"]

/-- The predicates the facade builds. -/
inductive Pred where
  | isInInt (col : String) (vals : List Int) : Pred
  | isInStr (col : String) (vals : List String) : Pred
  | isNotNull (col : String) : Pred
  | eqVal (col : String) (v : Val) : Pred
deriving DecidableEq

/-- The column a predicate references. -/
def Pred.colName : Pred → String
  | .isInInt c _ => c
  | .isInStr c _ => c
  | .isNotNull c => c
  | .eqVal c _ => c

/-- Row-level predicate evaluation. `is_in` is membership against cells
of the list's type; a null cell (null comparison) never passes a
filter, and a cell of a different type than the literals cannot match
any of them. `eqVal` is the `==` filter, with null on either side
filtering the row out. -/
def evalPred (p : Pred) (r : List (String × Val)) : Bool :=
  match p with
  | .isInInt c vals =>
    match dfGet r c with
    | .int n => vals.contains n
    | _ => false
  | .isInStr c vals =>
    match dfGet r c with
    | .str s => vals.contains s
    | _ => false
  | .isNotNull c =>
    match dfGet r c with
    | .null => false
    | _ => true
  | .eqVal c v =>
    match dfGet r c, v with
    | .null, _ => false
    | _, .null => false
    | w, v => w == v

/-- A lazy frame: the deferred plan the facade manipulates. -/
inductive LF where
  | scan (schema : List String) (rows : List (List (String × Val))) : LF
  | filter (p : Pred) (src : LF) : LF
  | select (cols : List String) (src : LF) : LF
deriving DecidableEq

/-- `collect_schema().names()` of a plan. -/
def LF.schemaOf : LF → List String
  | .scan s _ => s
  | .filter _ src => src.schemaOf
  | .select cols _ => cols

/-- Materialize a plan. Column references are resolved against the
upstream schema; an absent column fails the whole collect with
`ColumnNotFoundError`, it never silently degrades. -/
def LF.collect : LF → Except String (List (List (String × Val)))
  | .scan _ rows => .ok rows
  | .filter p src =>
    if src.schemaOf.contains p.colName then
      (LF.collect src).map (fun rows => rows.filter (evalPred p))
    else .error ("ColumnNotFoundError: " ++ p.colName)
  | .select cols src =>
    if cols.all (fun c => src.schemaOf.contains c) then
      (LF.collect src).map (fun rows => rows.map (fun r => cols.map (fun c => (c, dfGet r c))))
    else .error "ColumnNotFoundError"

/-- `NCDBQuery.count`: `self._lf.select(pl.len()).collect().item(0, 0)`
— a row-count aggregation over the plan; only the count, never the
rows, is the result. -/
def queryCount (lf : LF) : Except String Nat :=
  (LF.collect lf).map List.length

/-- The plan update of `filter_by_year`:
`self._lf.filter(pl.col(YEAR_COLUMN).is_in(years))`. -/
def filterByYearPlan (lf : LF) (years : List Int) : LF :=
  .filter (.isInInt YEAR_COLUMN years) lf

/-- The plan update of `filter_by_primary_site`. -/
def filterByPrimarySitePlan (lf : LF) (sites : List String) : LF :=
  .filter (.isInStr PRIMARY_SITE_COLUMN sites) lf

/-- A histology code as accepted by `filter_by_histology`: an integer
or a string. -/
inductive HistCode where
  | int (n : Int) : HistCode
  | str (s : String) : HistCode
deriving DecidableEq

/-- `str(code)` in `filter_by_histology`. -/
def histCodeStr : HistCode → String
  | .int n => toString n
  | .str s => s

/-- The plan update of `filter_by_histology`: codes are converted to
strings, then an `is_in` filter on `HISTOLOGY`. -/
def filterByHistologyPlan (lf : LF) (codes : List HistCode) : LF :=
  .filter (.isInStr HISTOLOGY_COLUMN (codes.map histCodeStr)) lf

/-- The plan update of `drop_missing_vital_status`. -/
def dropMissingVitalStatusPlan (lf : LF) : LF :=
  .filter (.isNotNull VITAL_STATUS_COLUMN) lf

/-- The plan update of `select_demographics`: the canonical demographic
columns intersected with the columns actually present. -/
def selectDemographicsPlan (lf : LF) : LF :=
  .select (DEMOGRAPHIC_COLUMNS.filter (fun c => lf.schemaOf.contains c)) lf

/-- The plan update of `select_outcomes`. -/
def selectOutcomesPlan (lf : LF) : LF :=
  .select (OUTCOME_COLUMNS.filter (fun c => lf.schemaOf.contains c)) lf

/-- `pl.max()` over two cells of one column (a Polars column holds a
single type; the mixed cases are unreachable). -/
def valMax (a b : Val) : Val :=
  match a, b with
  | .int m, .int n => .int (max m n)
  | .str s, .str t => if s < t then .str t else .str s
  | a, _ => a

/-- `self._lf.select(pl.col(YEAR_COLUMN).max()).collect().item()`: the
maximum of the non-null year cells, or none when the aggregate is null
(empty frame or all-null column). -/
def maxYearVal (rows : List (List (String × Val))) : Option Val :=
  match rows.filterMap (fun r =>
      match dfGet r YEAR_COLUMN with
      | .null => none
      | v => some v) with
  | [] => none
  | y :: ys => some (ys.foldl valMax y)

/-- `null_count` of one column over materialized rows. -/
def countNulls (rows : List (List (String × Val))) (c : String) : Nat :=
  (rows.filter (fun r => dfGet r c == Val.null)).length

/-- `filter_active_variables`: find the most recent year, restrict to
that year, and select the columns that are not entirely null there. A
null recent year (`.item()` returning None) matches no row in the
equality filter, so every column then fails the `< total_rows` test. -/
def filterActiveVariablesPlan (lf : LF) : Except String LF :=
  if lf.schemaOf.contains YEAR_COLUMN then
    (LF.collect lf).map (fun rows =>
      let recent :=
        match maxYearVal rows with
        | none => []
        | some y => rows.filter (evalPred (.eqVal YEAR_COLUMN y))
      LF.select ((lf.schemaOf).filter (fun c => countNulls recent c < recent.length)) lf)
  else .error ("ColumnNotFoundError: " ++ YEAR_COLUMN)

/-! ## Object identity: mutating methods versus delegation

`NCDBQuery` holds its plan in `self._lf`. The named NCDB methods
execute `self._lf = <new plan>; return self`, while `__getattr__`
wraps a delegated LazyFrame-returning call in a brand-new `NCDBQuery`
and leaves the receiver untouched. Objects are modelled as identities
into a heap of plans. -/
abbrev ObjId := Nat

/-- The heap of query objects: each identity owns its `_lf` plan. -/
def Heap := ObjId → LF

/-- Writing one object's `_lf` attribute. -/
def updateHeap (h : Heap) (i : ObjId) (lf : LF) : Heap :=
  fun j => if j = i then lf else h j

/-- `filter_by_year`: `self._lf = self._lf.filter(...); return self`. -/
def NCDBQuery_filter_by_year (h : Heap) (self : ObjId) (years : List Int) :
    Heap × ObjId :=
  (updateHeap h self (filterByYearPlan (h self) years), self)

/-- `filter_by_primary_site`: mutates the receiver and returns it. -/
def NCDBQuery_filter_by_primary_site (h : Heap) (self : ObjId)
    (sites : List String) : Heap × ObjId :=
  (updateHeap h self (filterByPrimarySitePlan (h self) sites), self)

/-- `filter_by_histology`: mutates the receiver and returns it. -/
def NCDBQuery_filter_by_histology (h : Heap) (self : ObjId)
    (codes : List HistCode) : Heap × ObjId :=
  (updateHeap h self (filterByHistologyPlan (h self) codes), self)

/-- `drop_missing_vital_status`: mutates the receiver and returns it. -/
def NCDBQuery_drop_missing_vital_status (h : Heap) (self : ObjId) :
    Heap × ObjId :=
  (updateHeap h self (dropMissingVitalStatusPlan (h self)), self)

/-- `select_demographics`: mutates the receiver and returns it. -/
def NCDBQuery_select_demographics (h : Heap) (self : ObjId) :
    Heap × ObjId :=
  (updateHeap h self (selectDemographicsPlan (h self)), self)

/-- `select_outcomes`: mutates the receiver and returns it. -/
def NCDBQuery_select_outcomes (h : Heap) (self : ObjId) :
    Heap × ObjId :=
  (updateHeap h self (selectOutcomesPlan (h self)), self)

/-- `filter_active_variables`: on success mutates the receiver and
returns it (the internal collects can fail). -/
def NCDBQuery_filter_active_variables (h : Heap) (self : ObjId) :
    Except String (Heap × ObjId) :=
  (filterActiveVariablesPlan (h self)).map (fun lf => (updateHeap h self lf, self))

/-- The value a delegated LazyFrame method produces before the wrapper
inspects it: either a `pl.LazyFrame`, or a non-LazyFrame value such as
the `pl.LazyGroupBy` that `LazyFrame.group_by` returns. -/
inductive DelegatedResult where
  | frame (lf : LF) : DelegatedResult
  | groupBy (src : LF) (keys : List String) : DelegatedResult
deriving DecidableEq

/-- What the `__getattr__` wrapper hands back to the caller: a (fresh)
`NCDBQuery` object, or the delegated method's raw result. -/
inductive WrapperReturn where
  | query (i : ObjId) : WrapperReturn
  | raw (r : DelegatedResult) : WrapperReturn
deriving DecidableEq

/-- `LazyFrame.group_by(keys)`: produces a `LazyGroupBy` over the plan
— not a LazyFrame. -/
def groupByMethod (keys : List String) : LF → DelegatedResult :=
  fun lf => .groupBy lf keys

/-- A delegated method reached through `__getattr__`: the wrapper
applies the underlying method to the receiver's plan; only when the
result `isinstance(result, pl.LazyFrame)` does it build a brand-new
`NCDBQuery` (a fresh identity whose `_lf` is the result) and return
that — any other result (e.g. a `LazyGroupBy`) is returned unchanged.
The receiver is never written on either path. -/
def delegatedCall (h : Heap) (self fresh : ObjId) (m : LF → DelegatedResult) :
    Heap × WrapperReturn :=
  match m (h self) with
  | .frame lf => (updateHeap h fresh lf, .query fresh)
  | .groupBy src keys => (h, .raw (.groupBy src keys))

/-- `collect()` reached through `__getattr__`: the wrapper calls the
LazyFrame's `collect` and, since a DataFrame is not a LazyFrame,
returns its result unchanged. The second component is the list of
warnings emitted on this path — there is no size estimate and no
warning anywhere in it. -/
def delegatedCollect (lf : LF) :
    Except String (List (List (String × Val))) × List String :=
  (LF.collect lf, [])

/-! ## Concrete inputs used by the witnesses -/

/-- A one-column layout: `AGE` at 1-based inclusive positions 1–3. -/
def ageDefs : List ColDef := [⟨"AGE", 0, 3⟩]

/-- A record-length line whose `AGE` field is the `"90+"` sentinel. -/
def ageLine90 : String := String.mk ('9' :: '0' :: '+' :: List.replicate 1029 ' ')

/-- A record-length line whose `AGE` field is `"67"`. -/
def ageLine67 : String := String.mk ('6' :: '7' :: List.replicate 1030 ' ')

/-- A record-length line whose `AGE` field (the first three columns) is
blank, with data elsewhere so the line itself is not blank. -/
def ageLineEmptyField : String :=
  String.mk (' ' :: ' ' :: ' ' :: 'X' :: List.replicate 1028 ' ')

/-- A whitespace-only line of exactly the record length. -/
def blankLine1032 : String := String.mk (List.replicate NCDB_RECORD_LENGTH ' ')

/-- Five one-column rows spanning diagnosis years 2018 through 2022. -/
def rowsYears : List (List (String × Val)) :=
  [[("YEAR_OF_DIAGNOSIS", Val.int 2018)], [("YEAR_OF_DIAGNOSIS", Val.int 2019)],
   [("YEAR_OF_DIAGNOSIS", Val.int 2020)], [("YEAR_OF_DIAGNOSIS", Val.int 2021)],
   [("YEAR_OF_DIAGNOSIS", Val.int 2022)]]

/-- A one-row, one-column scan over the year column. -/
def lfYear2021 : LF := .scan ["YEAR_OF_DIAGNOSIS"] [[("YEAR_OF_DIAGNOSIS", Val.int 2021)]]

/-- A heap in which every object holds `lfYear2021`. -/
def heapYear2021 : Heap := fun _ => lfYear2021

/-! ## Theorems -/

/-- `str()`-level comparison of embedded types agrees with
constructor-level comparison. -/
theorem dtypeStr_beq (a b : DType) : (dtypeStr a == dtypeStr b) = (a == b) := by
  cases a <;> cases b <;> decide

/-- The `'Utf8' in t or 'String' in t` test recognizes exactly the
string type. -/
theorem utf8_test (u : DType) :
    (strContains (dtypeStr u) "Utf8" || strContains (dtypeStr u) "String")
      = (u == DType.utf8) := by
  cases u <;> decide

/-- The `'Float64' in t` test recognizes exactly the float type. -/
theorem float64_test (u : DType) :
    strContains (dtypeStr u) "Float64" = (u == DType.float64) := by
  cases u <;> decide

/-- The `'Int64' in t` test recognizes exactly the integer type. -/
theorem int64_test (u : DType) :
    strContains (dtypeStr u) "Int64" = (u == DType.int64) := by
  cases u <;> decide

theorem precWinner_cons (t b : DType) (ts : List DType) :
    precWinner t (b :: ts)
      = precWinner (if typeRank t < typeRank b then b else t) ts := rfl

/-- The precedence winner is one of the observed types. -/
theorem precWinner_mem : ∀ (ts : List DType) (t : DType), precWinner t ts ∈ t :: ts := by
  intro ts
  induction ts with
  | nil => intro t; simp [precWinner]
  | cons b ts ih =>
    intro t
    rw [precWinner_cons]
    by_cases hc : typeRank t < typeRank b
    · rw [if_pos hc]
      exact List.mem_cons_of_mem t (ih b)
    · rw [if_neg hc]
      rcases List.mem_cons.mp (ih t) with h | h
      · rw [h]; exact List.mem_cons_self _ _
      · exact List.mem_cons_of_mem _ (List.mem_cons_of_mem _ h)

/-- The precedence winner dominates every observed type. -/
theorem precWinner_rank_ge :
    ∀ (ts : List DType) (t u : DType), u ∈ t :: ts →
      typeRank u ≤ typeRank (precWinner t ts) := by
  intro ts
  induction ts with
  | nil =>
    intro t u hu
    rcases List.mem_cons.mp hu with h | h
    · subst h; simp [precWinner]
    · simp at h
  | cons b ts ih =>
    intro t u hu
    rw [precWinner_cons]
    have ht : typeRank t ≤ typeRank (if typeRank t < typeRank b then b else t) := by
      by_cases hc : typeRank t < typeRank b <;> simp [hc] <;> omega
    have hb : typeRank b ≤ typeRank (if typeRank t < typeRank b then b else t) := by
      by_cases hc : typeRank t < typeRank b <;> simp [hc] <;> omega
    have hhead := ih (if typeRank t < typeRank b then b else t) _
      (List.mem_cons_self _ _)
    rcases List.mem_cons.mp hu with h | h
    · subst h; exact le_trans ht hhead
    · rcases List.mem_cons.mp h with h2 | h2
      · subst h2; exact le_trans hb hhead
      · exact ih _ u (List.mem_cons_of_mem _ h2)

theorem typeRank_le_two (u : DType) : typeRank u ≤ 2 := by cases u <;> decide

theorem typeRank_two_iff (u : DType) : typeRank u = 2 ↔ u = .utf8 := by
  cases u <;> decide

theorem rank_one_not_utf8 (u : DType) : u ≠ .utf8 → 1 ≤ typeRank u → u = .float64 := by
  cases u <;> decide

/-- If string was observed, the precedence winner is string. -/
theorem precWinner_eq_utf8 (t : DType) (ts : List DType)
    (h : DType.utf8 ∈ t :: ts) : precWinner t ts = .utf8 := by
  have h1 := precWinner_rank_ge ts t .utf8 h
  have h2 := typeRank_le_two (precWinner t ts)
  exact (typeRank_two_iff _).mp (le_antisymm h2 h1)

/-- If float but not string was observed, the winner is float. -/
theorem precWinner_eq_float64 (t : DType) (ts : List DType)
    (hn : DType.utf8 ∉ t :: ts) (hf : DType.float64 ∈ t :: ts) :
    precWinner t ts = .float64 := by
  have hge := precWinner_rank_ge ts t .float64 hf
  have hmem := precWinner_mem ts t
  have hne : precWinner t ts ≠ .utf8 := fun he => hn (he ▸ hmem)
  exact rank_one_not_utf8 _ hne hge

/-- `any` over a mapped list tests the composite. -/
theorem any_map_comp {α β : Type} (f : α → β) (p : β → Bool) (l : List α) :
    (l.map f).any p = l.any (p ∘ f) := by
  induction l with
  | nil => rfl
  | cons a l ih => simp [ih]

/-- On disagreement `resolve_column_type` is the str-test preference
chain, rewritten to constructor tests. -/
theorem resolve_disagree (t : DType) (ts : List DType)
    (h : ts.all (fun u => dtypeStr u == dtypeStr t) = false) :
    resolve_column_type (t :: ts)
      = (if (t :: ts).any (· == DType.utf8) then DType.utf8
         else if (t :: ts).any (· == DType.float64) then DType.float64
         else if (t :: ts).any (· == DType.int64) then DType.int64
         else DType.utf8) := by
  simp only [resolve_column_type]
  rw [h]
  have e1 : ((fun s => strContains s "Utf8" || strContains s "String") ∘ dtypeStr)
      = (fun u : DType => u == DType.utf8) := funext utf8_test
  have e2 : ((fun s => strContains s "Float64") ∘ dtypeStr)
      = (fun u : DType => u == DType.float64) := funext float64_test
  have e3 : ((fun s => strContains s "Int64") ∘ dtypeStr)
      = (fun u : DType => u == DType.int64) := funext int64_test
  rw [any_map_comp, any_map_comp, any_map_comp, e1, e2, e3]
  simp

/-- C2: for a column outside the never-numeric set, agreement across
the files that contain it keeps that type, and any disagreement is
resolved to the winner of the total-order precedence
string > floating-point > integer. -/
theorem c2_conflict_precedence :
    ∀ (schemas : List FileSchema) (col : String) (t : DType) (ts : List DType),
      col ∉ NEVER_NUMERIC →
      observedTypes schemas col = t :: ts →
      ((∀ u ∈ ts, u = t) → determine_global_schema schemas col = some t)
      ∧ ((∃ u ∈ ts, u ≠ t) →
          determine_global_schema schemas col = some (precWinner t ts)) := by
  intro schemas col t ts hnm hobs
  have hobserved : colObserved schemas col = true := by
    cases hB : colObserved schemas col
    · exfalso
      have hnil : observedTypes schemas col = [] := by
        apply List.filterMap_eq_nil_iff.mpr
        intro fs hfs
        have hB' : schemas.any (fun fs => fs.any (fun p => p.1 == col)) = false := hB
        have hany' : ¬ (fs.any (fun p => p.1 == col) = true) :=
          (List.any_eq_false.mp hB') fs hfs
        have hany : fs.any (fun p => p.1 == col) = false := by
          cases hx : fs.any (fun p => p.1 == col)
          · rfl
          · exact absurd hx hany'
        have hfind : fs.find? (fun p => p.1 == col) = none := by
          apply List.find?_eq_none.mpr
          exact List.any_eq_false.mp hany
        simp [hfind]
      rw [hnil] at hobs
      exact List.noConfusion hobs
    · rfl
  have hschema : determine_global_schema schemas col
      = some (resolve_column_type (t :: ts)) := by
    simp [determine_global_schema, hobserved, hnm, hobs]
  constructor
  · intro hall
    have hallb : ts.all (fun u => dtypeStr u == dtypeStr t) = true := by
      rw [List.all_eq_true]
      intro u hu
      rw [hall u hu]
      simp
    rw [hschema]
    simp [resolve_column_type, hallb]
  · rintro ⟨u, hu, hne⟩
    have hallb : ts.all (fun u => dtypeStr u == dtypeStr t) = false := by
      apply List.all_eq_false.mpr
      refine ⟨u, hu, ?_⟩
      rw [dtypeStr_beq]
      simp [hne]
    have hres : resolve_column_type (t :: ts) = precWinner t ts := by
      rw [resolve_disagree t ts hallb]
      by_cases hu8 : (t :: ts).any (· == DType.utf8) = true
      · rw [if_pos hu8]
        rcases List.any_eq_true.mp hu8 with ⟨v, hv, hvb⟩
        have : v = DType.utf8 := by simpa using hvb
        rw [precWinner_eq_utf8 t ts (this ▸ hv)]
      · have hu8' : DType.utf8 ∉ t :: ts := by
          intro hmem
          exact hu8 (List.any_eq_true.mpr ⟨DType.utf8, hmem, by simp⟩)
        rw [if_neg hu8]
        by_cases hf : (t :: ts).any (· == DType.float64) = true
        · rw [if_pos hf]
          rcases List.any_eq_true.mp hf with ⟨v, hv, hvb⟩
          have : v = DType.float64 := by simpa using hvb
          rw [precWinner_eq_float64 t ts hu8' (this ▸ hv)]
        · exfalso
          have hf' : DType.float64 ∉ t :: ts := by
            intro hmem
            exact hf (List.any_eq_true.mpr ⟨DType.float64, hmem, by simp⟩)
          have hint : ∀ v ∈ t :: ts, v = DType.int64 := by
            intro v hv
            cases v with
            | utf8 => exact absurd hv hu8'
            | float64 => exact absurd hv hf'
            | int64 => rfl
          have : u = t := by
            rw [hint u (List.mem_cons_of_mem _ hu), hint t (List.mem_cons_self _ _)]
          exact hne this
    rw [hschema, hres]

/-- Witness for C2: `AGE` seen as integer in one file and string in
another resolves to string (the precedence winner). -/
theorem c2_witness :
    ("AGE" ∉ NEVER_NUMERIC)
    ∧ observedTypes [[("AGE", DType.int64)], [("AGE", DType.utf8)]] "AGE"
        = [DType.int64, DType.utf8]
    ∧ determine_global_schema [[("AGE", DType.int64)], [("AGE", DType.utf8)]] "AGE"
        = some DType.utf8 := by
  have h := (c2_conflict_precedence [[("AGE", DType.int64)], [("AGE", DType.utf8)]]
    "AGE" DType.int64 [DType.utf8] (by decide) (by decide)).2
    ⟨DType.utf8, by decide, by decide⟩
  exact ⟨by decide, by decide, h.trans (by decide)⟩

/-- C1: a never-numeric column observed in any per-file schema is
mapped to the string type by `determine_global_schema`, whatever types
the files inferred for it. -/
theorem c1_never_numeric_resolves_to_string :
    ∀ (schemas : List FileSchema) (col : String),
      col ∈ NEVER_NUMERIC → colObserved schemas col = true →
      determine_global_schema schemas col = some .utf8 := by
  intro schemas col hmem hobs
  simp [determine_global_schema, hobs, hmem]

/-- Witness for C1: two files both inferring `YEAR_OF_DIAGNOSIS` as
integer still resolve to string. -/
theorem c1_witness :
    ("YEAR_OF_DIAGNOSIS" ∈ NEVER_NUMERIC)
    ∧ colObserved [[("YEAR_OF_DIAGNOSIS", DType.int64)],
        [("YEAR_OF_DIAGNOSIS", DType.int64)]] "YEAR_OF_DIAGNOSIS" = true
    ∧ determine_global_schema [[("YEAR_OF_DIAGNOSIS", DType.int64)],
        [("YEAR_OF_DIAGNOSIS", DType.int64)]] "YEAR_OF_DIAGNOSIS" = some .utf8 :=
  ⟨by decide, by decide,
   c1_never_numeric_resolves_to_string _ _ (by decide) (by decide)⟩

/-- C8: each named domain filter references a fixed column, and
materializing after the filter on a frame whose schema lacks that
column fails with `ColumnNotFoundError` — it never returns rows. -/
theorem c8_named_filters_error_on_missing_column :
    ∀ (lf : LF) (years : List Int) (sites : List String) (codes : List HistCode),
      (lf.schemaOf.contains YEAR_COLUMN = false →
        LF.collect (filterByYearPlan lf years)
          = .error ("ColumnNotFoundError: " ++ YEAR_COLUMN))
      ∧ (lf.schemaOf.contains PRIMARY_SITE_COLUMN = false →
        LF.collect (filterByPrimarySitePlan lf sites)
          = .error ("ColumnNotFoundError: " ++ PRIMARY_SITE_COLUMN))
      ∧ (lf.schemaOf.contains HISTOLOGY_COLUMN = false →
        LF.collect (filterByHistologyPlan lf codes)
          = .error ("ColumnNotFoundError: " ++ HISTOLOGY_COLUMN))
      ∧ (lf.schemaOf.contains VITAL_STATUS_COLUMN = false →
        LF.collect (dropMissingVitalStatusPlan lf)
          = .error ("ColumnNotFoundError: " ++ VITAL_STATUS_COLUMN)) := by
  intro lf years sites codes
  refine ⟨fun h => ?_, fun h => ?_, fun h => ?_, fun h => ?_⟩ <;>
    simp only [filterByYearPlan, filterByPrimarySitePlan, filterByHistologyPlan,
      dropMissingVitalStatusPlan, LF.collect, Pred.colName] <;>
    rw [h] <;> simp

/-- Witness for C8: a frame with only an `AGE` column. -/
theorem c8_witness :
    ((LF.scan ["AGE"] []).schemaOf.contains YEAR_COLUMN = false)
    ∧ ((LF.scan ["AGE"] []).schemaOf.contains PRIMARY_SITE_COLUMN = false)
    ∧ ((LF.scan ["AGE"] []).schemaOf.contains HISTOLOGY_COLUMN = false)
    ∧ ((LF.scan ["AGE"] []).schemaOf.contains VITAL_STATUS_COLUMN = false)
    ∧ LF.collect (filterByYearPlan (.scan ["AGE"] []) [2020])
        = .error "ColumnNotFoundError: YEAR_OF_DIAGNOSIS"
    ∧ LF.collect (dropMissingVitalStatusPlan (.scan ["AGE"] []))
        = .error "ColumnNotFoundError: PUF_VITAL_STATUS" := by
  have h := c8_named_filters_error_on_missing_column (.scan ["AGE"] []) [2020] [] []
  exact ⟨by decide, by decide, by decide, by decide, h.1 (by decide), h.2.2.2 (by decide)⟩

/-- Concatenating the batches gives back the row stream unchanged, for
every batch size. -/
theorem batchLoop_flatten {α : Type} (b : Nat) (l : List α) :
    ∀ acc : List α, (batchLoop b l acc).flatten = acc ++ l := by
  induction l with
  | nil =>
    intro acc
    by_cases h : acc.isEmpty
    · simp [batchLoop, h, List.isEmpty_iff.mp h]
    · simp [batchLoop, h]
  | cons r rs ih =>
    intro acc
    simp only [batchLoop]
    by_cases hb : b ≤ (acc ++ [r]).length
    · rw [if_pos hb]; simp [ih]
    · rw [if_neg hb]; simp [ih]

/-- C6: `build_dataset` produces the same frame (same rows in the same
order, same columns and values) for any two batch sizes — batching is
only a pacing mechanism. -/
theorem c6_batch_size_has_no_effect :
    ∀ (b1 b2 : Nat) (lines : List String) (defs : List ColDef),
      1 ≤ b1 → 1 ≤ b2 →
      buildDatasetFrame b1 lines defs = buildDatasetFrame b2 lines defs := by
  intro b1 b2 lines defs _ _
  have key : ∀ b : Nat, buildRows b lines defs = decodeFile lines defs := by
    intro b
    simp [buildRows, batchLoop_flatten]
  simp [buildDatasetFrame, key]

/-- Witness for C6: batch sizes 1 and 3 on a two-record file. -/
theorem c6_witness :
    (1 ≤ 1) ∧ (1 ≤ 3)
    ∧ buildDatasetFrame 1 [ageLine90, ageLine67] ageDefs
        = buildDatasetFrame 3 [ageLine90, ageLine67] ageDefs :=
  ⟨by decide, by decide, c6_batch_size_has_no_effect 1 3 _ _ (by decide) (by decide)⟩

set_option maxRecDepth 400000 in
/-- C4 counterexample: a whitespace-only line of exactly the record
length is also skipped, so the dataset does not have one row per
correct-length line. -/
theorem c4_counterexample_blank_full_length_line :
    ¬ ((decodeFile [blankLine1032] ageDefs).length
        = ([blankLine1032].filter (fun l => l.length == NCDB_RECORD_LENGTH)).length) := by
  decide

/-- C4 amended: wrong-length lines are skipped without raising, and the
dataset has exactly one row per correct-length line that is not
whitespace-only; removing the whitespace-only exception is forced by
the counterexample. -/
theorem c4_amended_wrong_length_skipped :
    ∀ (lines : List String) (defs : List ColDef),
      (decodeFile lines defs).length
        = (lines.filter
            (fun l => !(strTrim l == "") && l.length == NCDB_RECORD_LENGTH)).length
      ∧ ∀ (xs ys : List String) (l : String), l.length ≠ NCDB_RECORD_LENGTH →
          decodeFile (xs ++ l :: ys) defs = decodeFile (xs ++ ys) defs := by
  intro lines defs
  constructor
  · induction lines with
    | nil => rfl
    | cons a as ih =>
      by_cases h1 : strTrim a = ""
      · simpa [decodeFile, List.filterMap_cons, List.filter_cons, h1] using ih
      · by_cases h2 : a.length = NCDB_RECORD_LENGTH
        · simpa [decodeFile, List.filterMap_cons, List.filter_cons, h1, h2] using ih
        · simpa [decodeFile, List.filterMap_cons, List.filter_cons, h1, h2] using ih
  · intro xs ys l hl
    by_cases h1 : strTrim l = ""
    · simp [decodeFile, List.filterMap_append, List.filterMap_cons, h1]
    · simp [decodeFile, List.filterMap_append, List.filterMap_cons, h1, hl]

/-- Witness for C4: dropping a wrong-length line ("ab") from a file
leaves the decoded rows unchanged. -/
theorem c4_witness :
    ("ab".length ≠ NCDB_RECORD_LENGTH)
    ∧ decodeFile ([] ++ "ab" :: [ageLine67]) ageDefs
        = decodeFile ([] ++ [ageLine67]) ageDefs := by
  have h := (c4_amended_wrong_length_skipped [ageLine67] ageDefs).2 [] [ageLine67] "ab"
    (by decide)
  exact ⟨by decide, h⟩

/-- C7: `filter_by_year([2020, 2021])` keeps exactly the rows whose
`YEAR_OF_DIAGNOSIS` is 2020 or 2021, and `count()` — the row-count
aggregation `select(pl.len())`, whose result is only a number — equals
the number of such rows. -/
theorem c7_filter_by_year_count :
    ∀ (schema : List String) (rows : List (List (String × Val))),
      schema.contains YEAR_COLUMN = true →
      LF.collect (filterByYearPlan (.scan schema rows) [2020, 2021])
        = .ok (rows.filter (fun r =>
            decide (dfGet r YEAR_COLUMN = Val.int 2020)
            || decide (dfGet r YEAR_COLUMN = Val.int 2021)))
      ∧ queryCount (filterByYearPlan (.scan schema rows) [2020, 2021])
        = .ok (rows.filter (fun r =>
            decide (dfGet r YEAR_COLUMN = Val.int 2020)
            || decide (dfGet r YEAR_COLUMN = Val.int 2021))).length := by
  intro schema rows h
  have hfilter : rows.filter (evalPred (.isInInt YEAR_COLUMN [2020, 2021]))
      = rows.filter (fun r =>
          decide (dfGet r YEAR_COLUMN = Val.int 2020)
          || decide (dfGet r YEAR_COLUMN = Val.int 2021)) := by
    apply List.filter_congr
    intro r _
    cases hv : dfGet r YEAR_COLUMN <;>
      simp [evalPred, hv, List.elem_eq_mem, List.mem_cons]
  have hcollect : LF.collect (filterByYearPlan (.scan schema rows) [2020, 2021])
      = .ok (rows.filter (evalPred (.isInInt YEAR_COLUMN [2020, 2021]))) := by
    simp only [filterByYearPlan, LF.collect, Pred.colName, LF.schemaOf]
    rw [h]
    simp [LF.collect, Except.map]
  rw [hfilter] at hcollect
  refine ⟨hcollect, ?_⟩
  simp [queryCount, hcollect, Except.map]



/-- Witness for C7: a table spanning 2018–2022, where the filtered
count is exactly the two rows in 2020/2021. -/
theorem c7_witness :
    (["YEAR_OF_DIAGNOSIS"].contains YEAR_COLUMN = true)
    ∧ queryCount (filterByYearPlan (.scan ["YEAR_OF_DIAGNOSIS"] rowsYears)
        [2020, 2021]) = .ok 2 := by
  have h := (c7_filter_by_year_count ["YEAR_OF_DIAGNOSIS"] rowsYears (by decide)).2
  exact ⟨by decide, h.trans (by rfl)⟩

set_option maxRecDepth 400000 in
/-- C3: on the end-to-end build pipeline the `"90+"` sentinel is lost —
`_apply_transformations` in `dataset_builder.py` casts `AGE` to `Int64`
before `apply_ncdb_specific_transformations` runs, so a raw `"90+"`
record reaches the transform engine as null and both derived age
columns come out null rather than 90/true.  The transform step in
isolation (string `AGE` column) does behave as claimed. -/
theorem c3_age_90_plus_lost_end_to_end :
    (endToEndBuild 10000 [ageLine90] ageDefs).rows
      = [[("AGE", Val.null), ("AGE_AS_INT", Val.null), ("AGE_IS_90_PLUS", Val.null)]]
    ∧ ageAsInt (.str "90+") = .int 90 ∧ ageIs90Plus (.str "90+") = .bool true
    ∧ ageAsInt (.str "67") = .int 67 ∧ ageIs90Plus (.str "67") = .bool false
    ∧ ageAsInt (.str "") = .null ∧ ageIs90Plus (.str "") = .bool false
    ∧ ageAsInt (.str "9X") = .null := by
  decide

/-- C9 counterexample: there is no row threshold above which the
delegated `collect()` warns — the delegation path emits no warning at
any result size. -/
theorem c9_counterexample_no_size_warning :
    ¬ ∃ T : Nat, ∀ (lf : LF) (rows : List (List (String × Val))),
        (delegatedCollect lf).1 = .ok rows → T < rows.length →
        (delegatedCollect lf).2 ≠ [] := by
  rintro ⟨T, h⟩
  exact h (.scan ["A"] (List.replicate (T + 1) [("A", Val.null)]))
    (List.replicate (T + 1) [("A", Val.null)]) rfl
    (by simp) rfl

/-- C9 amended: the delegated `collect()` returns the plan's full
materialized result to the caller and emits no warning, with no size
estimate, at any result size. -/
theorem c9_amended_collect_returns_all_no_warning :
    ∀ (lf : LF), (delegatedCollect lf).2 = []
      ∧ ∀ (schema : List String) (rows : List (List (String × Val))),
          (delegatedCollect (.scan schema rows)).1 = .ok rows :=
  fun _ => ⟨rfl, fun _ _ => rfl⟩

/-- C10 counterexample: a delegated `group_by` does not come back as a
fresh `NCDBQuery` — `__getattr__`'s wrapper only wraps results that are
LazyFrames, and `group_by` produces a `LazyGroupBy`, which is returned
raw. -/
theorem c10_counterexample_group_by_not_wrapped :
    (delegatedCall heapYear2021 0 1 (groupByMethod ["AGE"])).2
      = .raw (.groupBy lfYear2021 ["AGE"])
    ∧ ¬ ∃ i : ObjId,
        (delegatedCall heapYear2021 0 1 (groupByMethod ["AGE"])).2 = .query i := by
  refine ⟨rfl, ?_⟩
  rintro ⟨i, hi⟩
  exact WrapperReturn.noConfusion hi

/-- C10 amended: every named NCDB method writes its narrowed plan into
the receiver's `_lf` and returns the receiver itself, so the original
object is narrowed after the call; a delegated method whose underlying
call produces a LazyFrame comes back as a fresh `NCDBQuery` carrying
the new plan, while a delegated call producing a non-LazyFrame value
(such as `group_by`'s `LazyGroupBy`) is returned raw, unwrapped — in
both delegation cases the receiver's plan is unchanged. -/
theorem c10_amended_mutation_and_delegation :
    ∀ (h : Heap) (self : ObjId) (years : List Int) (sites : List String)
      (codes : List HistCode),
      ((NCDBQuery_filter_by_year h self years).2 = self
        ∧ (NCDBQuery_filter_by_year h self years).1 self
            = filterByYearPlan (h self) years)
      ∧ ((NCDBQuery_filter_by_primary_site h self sites).2 = self
        ∧ (NCDBQuery_filter_by_primary_site h self sites).1 self
            = filterByPrimarySitePlan (h self) sites)
      ∧ ((NCDBQuery_filter_by_histology h self codes).2 = self
        ∧ (NCDBQuery_filter_by_histology h self codes).1 self
            = filterByHistologyPlan (h self) codes)
      ∧ ((NCDBQuery_drop_missing_vital_status h self).2 = self
        ∧ (NCDBQuery_drop_missing_vital_status h self).1 self
            = dropMissingVitalStatusPlan (h self))
      ∧ ((NCDBQuery_select_demographics h self).2 = self
        ∧ (NCDBQuery_select_demographics h self).1 self
            = selectDemographicsPlan (h self))
      ∧ ((NCDBQuery_select_outcomes h self).2 = self
        ∧ (NCDBQuery_select_outcomes h self).1 self
            = selectOutcomesPlan (h self))
      ∧ (∀ lf', filterActiveVariablesPlan (h self) = .ok lf' →
          NCDBQuery_filter_active_variables h self = .ok (updateHeap h self lf', self)
          ∧ updateHeap h self lf' self = lf')
      ∧ (∀ (fresh : ObjId) (g : LF → LF), fresh ≠ self →
          delegatedCall h self fresh (fun lf => .frame (g lf))
            = (updateHeap h fresh (g (h self)), .query fresh)
          ∧ (updateHeap h fresh (g (h self))) self = h self
          ∧ (updateHeap h fresh (g (h self))) fresh = g (h self))
      ∧ (∀ (fresh : ObjId) (keys : List String),
          delegatedCall h self fresh (groupByMethod keys)
            = (h, .raw (.groupBy (h self) keys))) := by
  intro h self years sites codes
  refine ⟨⟨rfl, ?_⟩, ⟨rfl, ?_⟩, ⟨rfl, ?_⟩, ⟨rfl, ?_⟩, ⟨rfl, ?_⟩, ⟨rfl, ?_⟩, ?_, ?_, ?_⟩
  · simp [NCDBQuery_filter_by_year, updateHeap]
  · simp [NCDBQuery_filter_by_primary_site, updateHeap]
  · simp [NCDBQuery_filter_by_histology, updateHeap]
  · simp [NCDBQuery_drop_missing_vital_status, updateHeap]
  · simp [NCDBQuery_select_demographics, updateHeap]
  · simp [NCDBQuery_select_outcomes, updateHeap]
  · intro lf' hok
    rw [NCDBQuery_filter_active_variables, hok]
    exact ⟨rfl, by simp [updateHeap]⟩
  · intro fresh g hne
    refine ⟨rfl, ?_, ?_⟩
    · simp [updateHeap, Ne.symm hne]
    · simp [updateHeap]
  · intro fresh keys
    rfl

/-- Witness for C10: a concrete heap, receiver 0 and fresh object 1,
exercising a mutating method, a wrapped LazyFrame delegation and the
raw `group_by` delegation. -/
theorem c10_witness :
    filterActiveVariablesPlan (heapYear2021 0)
      = .ok (LF.select ["YEAR_OF_DIAGNOSIS"] lfYear2021)
    ∧ ((1 : ObjId) ≠ 0)
    ∧ NCDBQuery_filter_active_variables heapYear2021 0
        = .ok (updateHeap heapYear2021 0 (LF.select ["YEAR_OF_DIAGNOSIS"] lfYear2021), 0)
    ∧ (updateHeap heapYear2021 1 (dropMissingVitalStatusPlan (heapYear2021 0))) 0
        = heapYear2021 0
    ∧ delegatedCall heapYear2021 0 1 (fun lf => .frame (dropMissingVitalStatusPlan lf))
        = (updateHeap heapYear2021 1 (dropMissingVitalStatusPlan (heapYear2021 0)), .query 1)
    ∧ delegatedCall heapYear2021 0 1 (groupByMethod ["AGE"])
        = (heapYear2021, .raw (.groupBy (heapYear2021 0) ["AGE"]))
    ∧ (NCDBQuery_filter_by_year heapYear2021 0 [2020, 2021]).2 = 0 := by
  have h := c10_amended_mutation_and_delegation heapYear2021 0 [2020, 2021] [] []
  refine ⟨by rfl, by decide, ?_, ?_, ?_, h.2.2.2.2.2.2.2.2 1 ["AGE"], h.1.1⟩
  · exact (h.2.2.2.2.2.2.1 (LF.select ["YEAR_OF_DIAGNOSIS"] lfYear2021) (by rfl)).1
  · exact ((h.2.2.2.2.2.2.2.1 1 dropMissingVitalStatusPlan (by decide)).2).1
  · exact (h.2.2.2.2.2.2.2.1 1 dropMissingVitalStatusPlan (by decide)).1

/-- C5: the SITE_GROUP derivation is the ordered first-matching-prefix
evaluation of `siteRules` with default "Other"; in particular "C509"
maps to "Breast", "C729" to "Brain/CNS" and "C999" to "Other". -/
theorem c5_site_group_ordered_rules :
    (∀ s : String, siteGroupExpr (.str s) = .str (firstMatch siteRules s))
    ∧ siteGroupExpr (.str "C509") = .str "Breast"
    ∧ siteGroupExpr (.str "C729") = .str "Brain/CNS"
    ∧ siteGroupExpr (.str "C999") = .str "Other" := by
  refine ⟨fun s => ?_, by decide, by decide, by decide⟩
  simp only [siteGroupExpr, valStartsWith, whenOtherwise, siteRules, firstMatch]
  split_ifs <;> rfl

end NcdbTools
